import Mathlib

/-!
Verification development for the video-player repository.

This file gives a shallow embedding, in Lean, of the playback-orchestration
core of the repository: the format classifier (src/utils/format-detector),
the engine factory (src/engines/factory), the throttle and debounce
utilities (src/utils/throttle), the FLV backend reconnect machinery
(src/engines/flv) and the orchestrator state transitions of the
VideoPlayer class (src/index: loadSource, loadWithRetry,
setupEngineEvents, cleanupEngineEvents, handleEngineEvent,
savePlaybackPosition, restorePlaybackPosition).

Conventions of the embedding:
- JavaScript strings are Lean String values; the substring, case and
  splitting helpers used by the source are defined below on lists of
  characters.
- The WHATWG URL constructor is an external browser primitive; it is
  modelled by parseURL below: a URL parses when it has a scheme
  (letter followed by letters, digits, plus, minus, dot, then a colon),
  and the model extracts authority, pathname, query pairs and fragment.
  Percent-decoding and host normalisation are not modelled; the inputs
  used in concrete theorems avoid them.
- Methods that can throw are modelled with Except or with an explicit
  Boolean "threw" component; mutations performed before a throw are kept,
  as they are on a JavaScript object.
- Timers (setTimeout) are modelled with explicit task queues or with
  scheduled-fire-time fields; physical time is a natural number of
  milliseconds.
-/

namespace VP

/-! ### String helpers mirroring the JavaScript string operations used -/

/-- leadMatch s pat is true when pat occurs at the very start of s. -/
def leadMatch : List Char → List Char → Bool
  | _, [] => true
  | [], _ :: _ => false
  | a :: as, b :: bs => a == b && leadMatch as bs

/-- hasSub pat s is true when pat occurs contiguously somewhere in s;
this is the JavaScript String.includes. -/
def hasSub (pat : List Char) : List Char → Bool
  | [] => leadMatch [] pat
  | c :: rest => leadMatch (c :: rest) pat || hasSub pat rest

/-- JavaScript s.startsWith(pat). -/
def strStartsWith (s pat : String) : Bool := leadMatch s.data pat.data

/-- JavaScript s.includes(pat). -/
def strIncludes (s pat : String) : Bool := hasSub pat.data s.data

/-- JavaScript s.endsWith(pat). -/
def strEndsWith (s pat : String) : Bool := leadMatch s.data.reverse pat.data.reverse

/-- JavaScript s.toLowerCase(), restricted to the per-character lowering
that is all the source needs on its ASCII locators. -/
def strToLower (s : String) : String := ⟨s.data.map Char.toLower⟩

/-- JavaScript s.split(sep) for a one-character separator: always returns
a non-empty list of (possibly empty) segments. -/
def splitOnChar (sep : Char) : List Char → List (List Char)
  | [] => [[]]
  | c :: rest =>
    let r := splitOnChar sep rest
    if c == sep then [] :: r
    else
      match r with
      | [] => [[c]]
      | h :: t => (c :: h) :: t

/-- The last segment of a split; JavaScript array.pop() on a split result
(split results are never empty, so the default is unreachable). -/
def lastSeg (l : List (List Char)) : List Char := (l.getLast?).getD []

/-- take characters until one of the stop characters is met; returns the
taken span and the remainder (which starts with the stop character). -/
def takeUntil (stops : List Char) : List Char → (List Char × List Char)
  | [] => ([], [])
  | c :: rest =>
    if stops.contains c then ([], c :: rest)
    else
      let p := takeUntil stops rest
      (c :: p.1, p.2)

/-! ### Model of the WHATWG URL constructor (external browser primitive) -/

/-- The parts of a parsed URL that the source reads: pathname, the query
parameters, and enough structure (scheme, authority, fragment) to
re-serialise the URL for the RTMP-to-HTTP-FLV translation. -/
structure URLModel where
  scheme : String
  hasAuthority : Bool
  authority : String
  pathname : String
  rawQuery : Option String
  fragment : Option String
deriving DecidableEq, Repr

/-- Characters allowed in a URL scheme after the first letter. -/
def isSchemeChar (c : Char) : Bool :=
  c.isAlphanum || c == '+' || c == '-' || c == '.'

/-- Scan the scheme up to a colon; fails when a non-scheme character or
the end of the string is met first. -/
def schemeSplit : List Char → List Char → Option (List Char × List Char)
  | _, [] => none
  | acc, c :: rest =>
    if c == ':' then some (acc.reverse, rest)
    else if isSchemeChar c then schemeSplit (c :: acc) rest
    else none

/-- Split off an optional query and fragment from the tail of a URL. -/
def querySplit (rest : List Char) : Option String × Option String :=
  match rest with
  | '?' :: qf =>
    let p := takeUntil ['#'] qf
    match p.2 with
    | '#' :: f => (some ⟨p.1⟩, some ⟨f⟩)
    | _ => (some ⟨p.1⟩, none)
  | '#' :: f => (none, some ⟨f⟩)
  | _ => (none, none)

/-- Model of new URL(src): some parsed URL, or none when the constructor
throws. The model throws exactly when src has no valid scheme prefix;
the remaining WHATWG failure modes (bad hosts, bad ports) are not
modelled and the concrete inputs used below avoid them. -/
def parseURL (src : String) : Option URLModel :=
  match src.data with
  | [] => none
  | c0 :: _ =>
    if !c0.isAlpha then none
    else
      match schemeSplit [] src.data with
      | none => none
      | some (sch, rest) =>
        if leadMatch rest ['/', '/'] then
          let afterSlashes := rest.drop 2
          let pAuth := takeUntil ['/', '?', '#'] afterSlashes
          let pPath := takeUntil ['?', '#'] pAuth.2
          let qf := querySplit pPath.2
          some
            { scheme := ⟨sch⟩
              hasAuthority := true
              authority := ⟨pAuth.1⟩
              pathname := if pPath.1.isEmpty then "/" else ⟨pPath.1⟩
              rawQuery := qf.1
              fragment := qf.2 }
        else
          let pPath := takeUntil ['?', '#'] rest
          let qf := querySplit pPath.2
          some
            { scheme := ⟨sch⟩
              hasAuthority := false
              authority := ""
              pathname := ⟨pPath.1⟩
              rawQuery := qf.1
              fragment := qf.2 }

/-- Query pairs of a URL, in order; empty segments are skipped as
URLSearchParams does. Percent-decoding is not modelled. -/
def queryPairs (u : URLModel) : List (String × String) :=
  match u.rawQuery with
  | none => []
  | some q =>
    ((splitOnChar '&' q.data).filter (fun seg => !seg.isEmpty)).map fun kv =>
      let p := takeUntil ['='] kv
      match p.2 with
      | '=' :: vv => (⟨p.1⟩, ⟨vv⟩)
      | _ => (⟨p.1⟩, "")

/-- JavaScript url.searchParams.get(key): the first value for the key. -/
def searchGet (u : URLModel) (key : String) : Option String :=
  ((queryPairs u).find? (fun p => p.1 == key)).map (·.2)

/-- JavaScript url.searchParams.has(key). -/
def searchHas (u : URLModel) (key : String) : Bool :=
  (queryPairs u).any (fun p => p.1 == key)

/-- Re-serialise a URL after a pathname assignment, as url.toString()
does (modulo WHATWG normalisation, which the translated locators used
here do not trigger). -/
def urlToString (u : URLModel) : String :=
  u.scheme ++ ":" ++ (if u.hasAuthority then "//" ++ u.authority else "") ++
    u.pathname ++
    (match u.rawQuery with | some q => "?" ++ q | none => "") ++
    (match u.fragment with | some f => "#" ++ f | none => "")

/-! ### Format classifier: src/utils/format-detector detectVideoFormat -/

/-- The VideoFormat enumeration of the source. -/
inductive VideoFormat
  | mp4
  | webm
  | ogg
  | av1
  | hls
  | dash
  | flv
  | rtmp
  | unknown
deriving DecidableEq, Repr

/-- The AV1 sub-classification test of detectVideoFormat: an AV1 codec
token in the locator itself or in the codec query parameter. -/
def av1Hint (src : String) (u : URLModel) : Bool :=
  strIncludes src "av01" || strIncludes src "av1" ||
    (match searchGet u "codec" with
     | some c => strIncludes c "av01"
     | none => false)

/-- The outer condition of the HTTP-FLV pre-check of detectVideoFormat. -/
def flvPreHit (src : String) : Bool :=
  strIncludes src "/flv" && (strIncludes src "live" || strIncludes src "stream")

/-- The inner condition of the HTTP-FLV pre-check, evaluated on the
parsed URL. -/
def flvPreInner (u : URLModel) : Bool :=
  strIncludes u.pathname "flv" ||
    (searchHas u "format" && (searchGet u "format" == some "flv"))

/-- The content-type fallback of detectVideoFormat: inspect the type
query parameter against the fixed MIME table (the empty string is falsy
in JavaScript, so it skips the whole block). -/
def contentTypeDetect (u : URLModel) : VideoFormat :=
  match searchGet u "type" with
  | none => .unknown
  | some t0 =>
    let ct := strToLower t0
    if ct == "" then .unknown
    else if strIncludes ct "application/vnd.apple.mpegurl" ||
        strIncludes ct "application/x-mpegurl" then .hls
    else if strIncludes ct "application/dash+xml" then .dash
    else if strIncludes ct "video/flv" then .flv
    else if strIncludes ct "av01" || strIncludes ct "av1" then .av1
    else if strIncludes ct "video/mp4" then .mp4
    else if strIncludes ct "video/webm" then .webm
    else if strIncludes ct "video/ogg" then .ogg
    else .unknown

/-- The extension of a pathname as the source computes it:
pathname.toLowerCase().split(".").pop()?.toLowerCase() || "". -/
def pathExtension (pathname : String) : String :=
  ⟨lastSeg (splitOnChar '.' (strToLower pathname).data)⟩

/-- The body of the try block of detectVideoFormat: extension switch,
then content-type fallback. -/
def detectFromURL (src : String) (u : URLModel) : VideoFormat :=
  let extension := pathExtension u.pathname
  if extension == "m3u8" then .hls
  else if extension == "mpd" then .dash
  else if extension == "flv" then .flv
  else if extension == "mp4" || extension == "m4v" then
    if av1Hint src u then .av1 else .mp4
  else if extension == "webm" then
    if av1Hint src u then .av1 else .webm
  else if extension == "ogg" || extension == "ogv" then .ogg
  else contentTypeDetect u

/-- The catch block of detectVideoFormat: plain substring heuristics. -/
def substrFallback (src : String) : VideoFormat :=
  if strIncludes src ".m3u8" then .hls
  else if strIncludes src ".mpd" then .dash
  else if strIncludes src ".flv" then .flv
  else .unknown

/-- The guarded part of detectVideoFormat: new URL inside try/catch, so a
parse failure falls back to the substring heuristics. -/
def mainDetect (src : String) : VideoFormat :=
  match parseURL src with
  | some u => detectFromURL src u
  | none => substrFallback src

/-- detectVideoFormat from src/utils/format-detector. The Except models
the fact that the new URL call inside the HTTP-FLV pre-check is NOT
inside a try block: when the pre-check outer condition holds and the
locator does not parse, the TypeError escapes to the caller
(Except.error); every other path returns a format. -/
def detectVideoFormat (src : String) : Except Unit VideoFormat :=
  if src == "" then .ok .unknown
  else if strStartsWith src "rtmp://" || strStartsWith src "rtmps://" then .ok .rtmp
  else if flvPreHit src then
    match parseURL src with
    | none => .error ()
    | some u =>
      if flvPreInner u then .ok .flv
      else .ok (mainDetect src)
  else .ok (mainDetect src)

/-- Modelled from the spec: the extension table of section 4.1, written
directly from the words of the spec (m3u8 to HLS, mpd to DASH, flv to
FLV, mp4 and m4v to Progressive-or-AV1, webm to Progressive-or-AV1, ogg
and ogv to Progressive), used only to compare the classifier of the
source against the table the spec states. -/
def specExtTag (ext : String) (av1Token : Bool) : Option VideoFormat :=
  if ext == "m3u8" then some .hls
  else if ext == "mpd" then some .dash
  else if ext == "flv" then some .flv
  else if ext == "mp4" || ext == "m4v" then some (if av1Token then .av1 else .mp4)
  else if ext == "webm" then some (if av1Token then .av1 else .webm)
  else if ext == "ogg" || ext == "ogv" then some .ogg
  else none

/-! ### RTMP to HTTP-FLV translation: convertRTMPToHTTPFLV (the identical
private helpers of src/engines/factory, src/engines/flv and the
orchestrator) -/

/-- JavaScript s.replace(anchored-regex, repl) for a leading literal. -/
def replaceLeading (s pre repl : String) : String :=
  if strStartsWith s pre then repl ++ ⟨s.data.drop pre.data.length⟩ else s

/-- pathname.replace of the final "/segment" (segment non-empty, without
slashes) by newSeg; no match leaves the pathname unchanged, as the
JavaScript regex replace does. -/
def replaceLastPathSeg (pathname newSeg : String) : String :=
  let p := takeUntil ['/'] pathname.data.reverse
  match p.2 with
  | '/' :: restRev =>
    if p.1.isEmpty then pathname
    else ⟨restRev.reverse⟩ ++ newSeg
  | _ => pathname

/-- convertRTMPToHTTPFLV: scheme substitution, then ensure a .flv-suffixed
path; none models the catch returning null on a URL parse failure. -/
def convertRTMPToHTTPFLV (rtmpUrl : String) : Option String :=
  let httpUrl :=
    replaceLeading (replaceLeading rtmpUrl "rtmp://" "http://") "rtmps://" "https://"
  if strEndsWith httpUrl ".flv" then some httpUrl
  else
    match parseURL httpUrl with
    | none => none
    | some u =>
      if strEndsWith u.pathname ".flv" then some httpUrl
      else
        let streamName0 : String := ⟨lastSeg (splitOnChar '/' u.pathname.data)⟩
        let streamName := if streamName0 == "" then "stream" else streamName0
        some (urlToString
          { u with pathname := replaceLastPathSeg u.pathname ("/" ++ streamName ++ ".flv") })

/-! ### Engine factory: src/engines/factory PlayerEngineFactory.create -/

/-- The concrete engine classes the factory can instantiate. -/
inductive EngineKind
  | native
  | hls
  | dash
  | flv
deriving DecidableEq, Repr

/-- Environment of the factory: whether the specialized constructors
throw, and with which (opaque, numbered) error value. Constructing the
NativePlayerEngine only wires up video-element listeners and is modelled
as never throwing. -/
structure FactoryEnv where
  hlsCtorFail : Option Nat := none
  dashCtorFail : Option Nat := none
  flvCtorFail : Option Nat := none

/-- Errors PlayerEngineFactory.create can throw. ctorError carries the
very error value the specialized constructor threw: propagation is
unchanged. The RTMP branch wraps a construction error in a new Error
and can also fail on an untranslatable locator. -/
inductive FactoryError
  | detectThrew
  | ctorError (e : Nat)
  | rtmpCtorWrapped (e : Nat)
  | rtmpConvertFailed
deriving DecidableEq, Repr

/-- The result of a successful create: which engine class was built and
whether the console.warn fallback diagnostic was emitted on the way. -/
structure CreatedEngine where
  kind : EngineKind
  diagnostic : Bool
deriving DecidableEq, Repr

/-- The configuration flags create destructures. -/
structure FactoryConfig where
  autoDetectFormat : Bool := true
  fallbackToNative : Bool := true

/-- PlayerEngineFactory.create: classify, then build the matching engine,
falling back to the native engine on construction failure exactly when
fallbackToNative is set; otherwise the construction error propagates. -/
def factoryCreate (env : FactoryEnv) (src : String) (cfg : FactoryConfig) :
    Except FactoryError CreatedEngine :=
  let fmtE : Except Unit VideoFormat :=
    if cfg.autoDetectFormat then detectVideoFormat src else .ok .unknown
  match fmtE with
  | .error _ => .error .detectThrew
  | .ok fmt =>
    match fmt with
    | .hls =>
      match env.hlsCtorFail with
      | some e =>
        if cfg.fallbackToNative then .ok ⟨.native, true⟩ else .error (.ctorError e)
      | none => .ok ⟨.hls, false⟩
    | .dash =>
      match env.dashCtorFail with
      | some e =>
        if cfg.fallbackToNative then .ok ⟨.native, true⟩ else .error (.ctorError e)
      | none => .ok ⟨.dash, false⟩
    | .flv =>
      match env.flvCtorFail with
      | some e =>
        if cfg.fallbackToNative then .ok ⟨.native, true⟩ else .error (.ctorError e)
      | none => .ok ⟨.flv, false⟩
    | .rtmp =>
      match convertRTMPToHTTPFLV src with
      | some _ =>
        match env.flvCtorFail with
        | some e =>
          if cfg.fallbackToNative then .ok ⟨.native, true⟩
          else .error (.rtmpCtorWrapped e)
        | none => .ok ⟨.flv, false⟩
      | none =>
        if cfg.fallbackToNative then .ok ⟨.native, true⟩
        else .error .rtmpConvertFailed
    | _ => .ok ⟨.native, false⟩

/-! ### Throttle and debounce: src/utils/throttle -/

/-- The closure state of throttle(func, delay): lastCall starts at 0 and
pending is the scheduled trailing setTimeout fire time (always
lastCall + delay). Times are epoch milliseconds, so a first call always
finds now - lastCall at least delay, as Date.now() does against 0. -/
structure ThrottleState where
  lastCall : Nat
  pending : Option Nat
deriving DecidableEq, Repr

/-- The state of a freshly created throttle closure. -/
def throttleInit : ThrottleState := ⟨0, none⟩

/-- In the single-threaded event loop a timer due at or before the
present instant runs before the new input is processed; firing sets
lastCall to the fire time and emits once. -/
def throttleAdvance (ts : ThrottleState) (now : Nat) : ThrottleState × List Nat :=
  match ts.pending with
  | some ft => if ft ≤ now then (⟨ft, none⟩, [ft]) else (ts, [])
  | none => (ts, [])

/-- One invocation of the throttled function at the given instant:
leading-edge call runs func at once; otherwise the trailing timeout is
(re)scheduled for lastCall + delay. Returns the new state and the times
at which func ran. -/
def throttleCall (delay : Nat) (ts : ThrottleState) (now : Nat) : ThrottleState × List Nat :=
  let a := throttleAdvance ts now
  let ts1 := a.1
  if delay ≤ now - ts1.lastCall then (⟨now, ts1.pending⟩, a.2 ++ [now])
  else (⟨ts1.lastCall, some (now + (delay - (now - ts1.lastCall)))⟩, a.2)

/-- Let a still-pending trailing timeout fire after input has quiesced. -/
def throttleFlush (ts : ThrottleState) : ThrottleState × List Nat :=
  match ts.pending with
  | some ft => (⟨ft, none⟩, [ft])
  | none => (ts, [])

/-- The closure state of debounce(func, delay). -/
structure DebounceState where
  pending : Option Nat
deriving DecidableEq, Repr

/-- One invocation of the debounced function: a due pending timer fires
first, then the timer is reset to now + delay. -/
def debounceCall (delay : Nat) (ds : DebounceState) (now : Nat) : DebounceState × List Nat :=
  match ds.pending with
  | some ft =>
    if ft ≤ now then (⟨some (now + delay)⟩, [ft]) else (⟨some (now + delay)⟩, [])
  | none => (⟨some (now + delay)⟩, [])

/-- Let a still-pending debounce timeout fire after input has quiesced. -/
def debounceFlush (ds : DebounceState) : DebounceState × List Nat :=
  match ds.pending with
  | some ft => (⟨none⟩, [ft])
  | none => (ds, [])

/-! ### FLV backend: src/engines/flv FLVPlayerEngine reconnect machinery -/

/-- The private connectionStatus values of the FLV engine. -/
inductive ConnStatus
  | connected
  | disconnected
  | connecting
  | error
deriving DecidableEq, Repr

/-- The observable event feed of the FLV engine, restricted to the
events its reconnect machinery emits. -/
inductive FlvEvt
  | statusChange (s : ConnStatus)
  | statusChangeReconnect (count : Nat)
  | statusChangeExhausted
  | loadedmetadata
  | errorEvt
deriving DecidableEq, Repr

/-- External facts the FLV engine consults while loading: whether flv.js
is available (isSupported and the in-load presence check folded into
one flag each) and whether player construction throws. -/
structure FlvEnv where
  supported : Bool := true
  flvjsLoaded : Bool := true
  createPlayerThrows : Bool := false

/-- The FLV engine state touched by load/reconnect. scheduledAttempts is
a ghost counter of reconnect setTimeout registrations, used to state the
cap on scheduled attempts. -/
structure FlvState where
  currentSrc : Option String
  originalRTMPUrl : Option String
  isRTMPConverted : Bool
  reconnectCount : Nat
  maxReconnectAttempts : Nat
  autoReconnect : Bool
  reconnectDelay : Nat
  connectionStatus : ConnStatus
  playerAlive : Bool
  reconnectTimerSet : Bool
  emitted : List FlvEvt
  scheduledAttempts : Nat
deriving DecidableEq, Repr

/-- A freshly constructed FLV engine with the given maximum reconnect
attempts (constructor defaults otherwise). -/
def flvNew (maxAttempts : Nat) : FlvState :=
  { currentSrc := none
    originalRTMPUrl := none
    isRTMPConverted := false
    reconnectCount := 0
    maxReconnectAttempts := maxAttempts
    autoReconnect := true
    reconnectDelay := 3000
    connectionStatus := .disconnected
    playerAlive := false
    reconnectTimerSet := false
    emitted := []
    scheduledAttempts := 0 }

/-- FLVPlayerEngine.attemptReconnect: below the cap, bump the counter and
schedule a reconnect (replacing any pending one); at the cap, report the
error status and schedule nothing. -/
def attemptReconnect (st : FlvState) : FlvState :=
  if !st.autoReconnect || st.currentSrc.isNone then st
  else if st.maxReconnectAttempts ≤ st.reconnectCount then
    { st with
      connectionStatus := .error
      emitted := st.emitted ++ [.statusChangeExhausted] }
  else
    { st with
      reconnectCount := st.reconnectCount + 1
      connectionStatus := .connecting
      emitted := st.emitted ++ [.statusChangeReconnect (st.reconnectCount + 1)]
      reconnectTimerSet := true
      scheduledAttempts := st.scheduledAttempts + 1 }

/-- The part of FLVPlayerEngine.load after RTMP translation: record the
source, reset the reconnect counter, drop the old player, then build the
new one; a construction failure emits error and rethrows (second
component true), keeping the mutations already made. -/
def flvLoadRest (env : FlvEnv) (st : FlvState) (actualSrc : String) : FlvState × Bool :=
  let st := { st with
    currentSrc := some actualSrc
    reconnectCount := 0
    playerAlive := false }
  if !env.flvjsLoaded then
    ({ st with emitted := st.emitted ++ [.errorEvt] }, true)
  else if env.createPlayerThrows then
    ({ st with emitted := st.emitted ++ [.errorEvt] }, true)
  else
    ({ st with
        playerAlive := true
        connectionStatus := .connecting
        emitted := st.emitted ++ [.statusChange .connecting] }, false)

/-- FLVPlayerEngine.load. The Boolean result is true when load throws. -/
def flvLoad (env : FlvEnv) (st : FlvState) (src : String) : FlvState × Bool :=
  if !env.supported then (st, true)
  else if strStartsWith src "rtmp://" || strStartsWith src "rtmps://" then
    match convertRTMPToHTTPFLV src with
    | none => (st, true)
    | some h =>
      flvLoadRest env { st with isRTMPConverted := true, originalRTMPUrl := some src } h
  else
    flvLoadRest env { st with isRTMPConverted := false, originalRTMPUrl := none } src

/-- FLVPlayerEngine.handleNetworkStatus on a NETWORK_STATUS signal. -/
def handleNetworkStatus (st : FlvState) (networkState : Nat) : FlvState :=
  if networkState == 3 then
    attemptReconnect
      { st with
        connectionStatus := .disconnected
        emitted := st.emitted ++ [.statusChange .disconnected] }
  else if networkState == 2 then
    { st with
      connectionStatus := .connecting
      emitted := st.emitted ++ [.statusChange .connecting] }
  else if networkState == 1 then
    { st with
      connectionStatus := .connected
      emitted := st.emitted ++ [.statusChange .connected] }
  else st

/-- FLVPlayerEngine.handleError on an flv.js ERROR signal. -/
def handleFlvError (st : FlvState) (errorType : String) : FlvState :=
  let st := { st with
    connectionStatus := .error
    emitted := st.emitted ++ [.statusChange .error] }
  if st.autoReconnect && (errorType == "NetworkError" || errorType == "NetworkException") then
    attemptReconnect st
  else { st with emitted := st.emitted ++ [.errorEvt] }

/-- The LOADING_COMPLETE handler: the success signal of a connection. -/
def handleLoadingComplete (st : FlvState) : FlvState :=
  { st with
    connectionStatus := .connected
    reconnectCount := 0
    emitted := st.emitted ++ [.loadedmetadata, .statusChange .connected] }

/-- FLVPlayerEngine.reconnect (the manual call): zero the counter, then
attempt when a source is present. -/
def flvReconnect (st : FlvState) : FlvState :=
  let st := { st with reconnectCount := 0 }
  if st.currentSrc.isSome then attemptReconnect st else st

/-- The body of the reconnect setTimeout: drop the player and reload the
current source, retrying on failure. -/
def flvTimerFire (env : FlvEnv) (st : FlvState) : FlvState :=
  if !st.reconnectTimerSet then st
  else
    let st := { st with reconnectTimerSet := false, playerAlive := false }
    match st.currentSrc with
    | some src =>
      let r := flvLoad env st src
      if r.2 then attemptReconnect r.1 else r.1
    | none => st

/-- k consecutive connection-loss signals (networkState 3), oldest first. -/
def lossSignals : Nat → FlvState → FlvState
  | 0, st => st
  | k + 1, st => lossSignals k (handleNetworkStatus st 3)

/-! ### Orchestrator: the VideoPlayer class of src/index

The embedding covers the members the claims are about: loadSource,
loadWithRetry, createDetailedError and its two helpers, the engine event
wiring (setupEngineEvents, cleanupEngineEvents, handleEngineEvent) and
the playback-position persistence (savePlaybackPosition,
restorePlaybackPosition). The native-video-element statistics listeners
(setupNativeVideoEvents), the debug panel and the playlist mechanics are
outside the claims and are represented only where a claim path touches
them (a ghost counter for handlePlaylistEnded invocations). -/

/-- The consumer-facing event vocabulary used by the embedded paths. -/
inductive PlayerEvent
  | loadstart
  | loadedmetadata
  | loadeddata
  | progress
  | canplay
  | canplaythrough
  | play
  | pause
  | ended
  | timeupdate
  | volumechange
  | ratechange
  | seeking
  | seeked
  | waiting
  | error
  | connectionstatuschange
  | qualitychange
  | playbackrestored
deriving DecidableEq, Repr

/-- The fixed event list of setupEngineEvents that is forwarded through
plain handlers. -/
def forwardedEvents : List PlayerEvent :=
  [.loadstart, .loadedmetadata, .loadeddata, .progress, .canplay, .canplaythrough,
   .play, .pause, .ended, .timeupdate, .volumechange, .ratechange,
   .seeking, .seeked, .waiting, .error, .connectionstatuschange]

/-- The handler closures setupEngineEvents creates. gen numbers one
setup round, distinguishing closure identities across rounds exactly as
reference equality does in JavaScript. -/
inductive Handler
  | direct (ev : PlayerEvent) (gen : Nat)
  | throttledTimeUpdate (gen : Nat)
  | debouncedVolumeChange (gen : Nat)
  | throttledSeeking (gen : Nat)
deriving DecidableEq, Repr

/-- A live backend instance as the orchestrator sees it: its identity,
its class, and the listener table of the BasePlayerEngine on/off pair
(flattened; per-event order is the filter order). -/
structure EngineInst where
  id : Nat
  kind : EngineKind
  listeners : List (PlayerEvent × Handler)
deriving DecidableEq, Repr

/-- The detailed error object built by createDetailedError. The
originalError field duplicates message in this model and the timestamp
is not modelled (the retry driver has no physical clock). -/
structure DetailedError where
  errType : String
  message : String
  src : String
  retryCount : Nat
  maxRetries : Nat
  suggestion : String
deriving DecidableEq, Repr

/-- VideoPlayer.detectErrorType: substring classification of a message. -/
def detectErrorType (message : String) : String :=
  if strIncludes message "网络" || strIncludes message "network" ||
      strIncludes message "fetch" then "NETWORK_ERROR"
  else if strIncludes message "格式" || strIncludes message "format" ||
      strIncludes message "codec" then "FORMAT_ERROR"
  else if strIncludes message "CORS" || strIncludes message "跨域" then "CORS_ERROR"
  else if strIncludes message "404" || strIncludes message "not found" then "NOT_FOUND"
  else if strIncludes message "403" || strIncludes message "forbidden" then "FORBIDDEN"
  else "UNKNOWN_ERROR"

/-- VideoPlayer.getErrorSuggestion. -/
def getErrorSuggestion (errorType : String) : String :=
  if errorType == "NETWORK_ERROR" then "请检查网络连接，或稍后重试"
  else if errorType == "FORMAT_ERROR" then "视频格式可能不受支持，请尝试使用备用源"
  else if errorType == "CORS_ERROR" then "视频源服务器不允许跨域访问，请联系服务器管理员"
  else if errorType == "NOT_FOUND" then "视频源不存在，请检查 URL 是否正确"
  else if errorType == "FORBIDDEN" then "无权访问该视频源，请检查权限设置"
  else "请尝试刷新页面或使用备用视频源"

/-- The options the embedded paths read (constructor defaults applied). -/
structure OrchOptions where
  autoSelectBestFormat : Bool := false
  fallbackSources : List String := []
  maxRetries : Nat := 3
  autoDetectFormat : Bool := true
  fallbackToNative : Bool := true
  enablePlaybackHistory : Bool := false

/-- External collaborators of the orchestrator: whether engine.load
throws for a locator (and with which message), the factory environment,
the capability-advisor output getRecommendedFormats reads off the
rendering surface, and the persisted position store. -/
structure OrchEnv where
  loadThrows : String → Bool
  loadErrorMessage : String → String
  factory : FactoryEnv
  recommended : List VideoFormat
  storedPosition : String → Option ℚ

/-- Timer tasks the retry logic schedules with setTimeout. -/
inductive OrchTask
  | callLoadSource (src : String) (delayMs : Nat)
  | callLoadWithRetry (src : String) (delayMs : Nat)
deriving DecidableEq, Repr

/-- The PlaybackStats accumulators the engine event switch updates
(startTime starts absent; durations are seconds as rationals). -/
structure OrchStats where
  totalPlayTime : ℚ := 0
  totalBufferingTime : ℚ := 0
  bufferingCount : Nat := 0
  errorCount : Nat := 0
  startTime : Option Nat := none
deriving DecidableEq, Repr

/-- The orchestrator state touched by the embedded members, plus ghost
trace fields: destroyedEngines (ids passed to engine.destroy),
loadAttempts (engine.load invocations in order), retryPeak (largest
value retryCount has taken) and playlistEndedSignals. -/
structure Orch where
  opts : OrchOptions
  engine : Option EngineInst
  nextEngineId : Nat
  destroyedEngines : List Nat
  currentSrc : Option String
  currentFormat : Option VideoFormat
  retryCount : Nat
  maxRetries : Nat
  retryPeak : Nat
  engineEventHandlers : List (PlayerEvent × Handler)
  engineEventsSetup : Bool
  handlerGen : Nat
  throttleTU : ThrottleState
  debounceVC : DebounceState
  throttleSeek : ThrottleState
  consumerEvents : List (Nat × PlayerEvent)
  emittedErrors : List DetailedError
  seekCalls : List ℚ
  loadAttempts : List String
  taskQueue : List OrchTask
  playlistEndedSignals : Nat
  stats : OrchStats
  playStartTime : Option Nat
  bufferingStartTime : Option Nat

/-- A freshly constructed player with the given options (before any
initial source is loaded). -/
def orchInit (opts : OrchOptions) : Orch :=
  { opts := opts
    engine := none
    nextEngineId := 0
    destroyedEngines := []
    currentSrc := none
    currentFormat := none
    retryCount := 0
    maxRetries := opts.maxRetries
    retryPeak := 0
    engineEventHandlers := []
    engineEventsSetup := false
    handlerGen := 0
    throttleTU := throttleInit
    debounceVC := ⟨none⟩
    throttleSeek := throttleInit
    consumerEvents := []
    emittedErrors := []
    seekCalls := []
    loadAttempts := []
    taskQueue := []
    playlistEndedSignals := 0
    stats := {}
    playStartTime := none
    bufferingStartTime := none }

/-- engine.on plus the engineEventHandlers bookkeeping push, as the
setup loop does for each handler it attaches. -/
def attachHandler (st : Orch) (ev : PlayerEvent) (h : Handler) : Orch :=
  match st.engine with
  | none => st
  | some e =>
    { st with
      engine := some { e with listeners := e.listeners ++ [(ev, h)] }
      engineEventHandlers := st.engineEventHandlers ++ [(ev, h)] }

/-- VideoPlayer.cleanupEngineEvents: engine.off for every recorded
handler, then clear the table. The off calls hit whatever engine is
currently attached. -/
def cleanupEngineEvents (st : Orch) : Orch :=
  match st.engine with
  | none => st
  | some e =>
    { st with
      engine := some
        { e with listeners := e.listeners.filter (fun p => !st.engineEventHandlers.contains p) }
      engineEventHandlers := []
      engineEventsSetup := false }

/-- VideoPlayer.setupEngineEvents: clean up a previous round, attach a
plain forwarding handler for every listed event, then attach the
freshly created throttled timeupdate, debounced volumechange and
throttled seeking handlers (fresh closures start with fresh timer
state). -/
def setupEngineEvents (st : Orch) : Orch :=
  match st.engine with
  | none => st
  | some _ =>
    let st := if st.engineEventsSetup then cleanupEngineEvents st else st
    let g := st.handlerGen
    let st := forwardedEvents.foldl (fun acc ev => attachHandler acc ev (.direct ev g)) st
    let st := { st with
      throttleTU := throttleInit
      debounceVC := ⟨none⟩
      throttleSeek := throttleInit }
    let st := attachHandler st .timeupdate (.throttledTimeUpdate g)
    let st := attachHandler st .volumechange (.debouncedVolumeChange g)
    let st := attachHandler st .seeking (.throttledSeeking g)
    { st with engineEventsSetup := true, handlerGen := g + 1 }

/-- this.emit to the consumer, recorded with the instant of emission. -/
def emitC (st : Orch) (t : Nat) (ev : PlayerEvent) : Orch :=
  { st with consumerEvents := st.consumerEvents ++ [(t, ev)] }

/-- VideoPlayer.restorePlaybackPosition: a stored position strictly above
5 seconds is restored 500ms later by a seek plus a playbackrestored
event; otherwise nothing happens. -/
def restorePlaybackPositionStep (env : OrchEnv) (st : Orch) (src : String) (t : Nat) : Orch :=
  match env.storedPosition src with
  | some position =>
    if 5 < position then
      { st with
        seekCalls := st.seekCalls ++ [position]
        consumerEvents := st.consumerEvents ++ [(t + 500, .playbackrestored)] }
    else st
  | none => st

/-- VideoPlayer.handleEngineEvent: the statistics switch, the playlist
and restore triggers, then the unconditional re-emit to the consumer. -/
def handleEngineEvent (env : OrchEnv) (st : Orch) (ev : PlayerEvent) (t : Nat) : Orch :=
  let st :=
    match ev with
    | .play =>
      { st with
        playStartTime := some t
        stats := { st.stats with startTime := some (st.stats.startTime.getD t) } }
    | .pause =>
      match st.playStartTime with
      | some ps =>
        { st with
          stats := { st.stats with
            totalPlayTime := st.stats.totalPlayTime + ((t - ps : Nat) : ℚ) / 1000 }
          playStartTime := none }
      | none => st
    | .waiting =>
      match st.bufferingStartTime with
      | some _ => st
      | none =>
        { st with
          bufferingStartTime := some t
          stats := { st.stats with bufferingCount := st.stats.bufferingCount + 1 } }
    | .canplay | .canplaythrough =>
      match st.bufferingStartTime with
      | some bs =>
        { st with
          stats := { st.stats with
            totalBufferingTime := st.stats.totalBufferingTime + ((t - bs : Nat) : ℚ) / 1000 }
          bufferingStartTime := none }
      | none => st
    | .error =>
      { st with stats := { st.stats with errorCount := st.stats.errorCount + 1 } }
    | .ended => { st with playlistEndedSignals := st.playlistEndedSignals + 1 }
    | .loadedmetadata =>
      match st.currentSrc with
      | some src =>
        if st.opts.enablePlaybackHistory then restorePlaybackPositionStep env st src t
        else st
      | none => st
    | _ => st
  emitC st t ev

/-- Dispatch of one attached handler on a raw engine event at instant t. -/
def runHandler (env : OrchEnv) (st : Orch) (h : Handler) (t : Nat) : Orch :=
  match h with
  | .direct ev _ => handleEngineEvent env st ev t
  | .throttledTimeUpdate _ =>
    let r := throttleCall 250 st.throttleTU t
    { st with
      throttleTU := r.1
      consumerEvents := st.consumerEvents ++ r.2.map (fun ft => (ft, PlayerEvent.timeupdate)) }
  | .debouncedVolumeChange _ =>
    let r := debounceCall 300 st.debounceVC t
    { st with
      debounceVC := r.1
      consumerEvents := st.consumerEvents ++ r.2.map (fun ft => (ft, PlayerEvent.volumechange)) }
  | .throttledSeeking _ =>
    let r := throttleCall 100 st.throttleSeek t
    { st with
      throttleSeek := r.1
      consumerEvents := st.consumerEvents ++ r.2.map (fun ft => (ft, PlayerEvent.seeking)) }

/-- A raw event raised by the active backend at instant t: every listener
the backend holds for that event runs, in attachment order. -/
def raiseEngineEvent (env : OrchEnv) (st : Orch) (ev : PlayerEvent) (t : Nat) : Orch :=
  match st.engine with
  | none => st
  | some e =>
    (e.listeners.filter (fun p => p.1 == ev)).foldl (fun acc p => runHandler env acc p.2 t) st

/-- After input quiesces, let the pending trailing timers of the shaped
handlers fire. -/
def flushShapedTimers (st : Orch) : Orch :=
  let r1 := throttleFlush st.throttleTU
  let st := { st with
    throttleTU := r1.1
    consumerEvents := st.consumerEvents ++ r1.2.map (fun ft => (ft, PlayerEvent.timeupdate)) }
  let r2 := debounceFlush st.debounceVC
  let st := { st with
    debounceVC := r2.1
    consumerEvents := st.consumerEvents ++ r2.2.map (fun ft => (ft, PlayerEvent.volumechange)) }
  let r3 := throttleFlush st.throttleSeek
  { st with
    throttleSeek := r3.1
    consumerEvents := st.consumerEvents ++ r3.2.map (fun ft => (ft, PlayerEvent.seeking)) }

/-- VideoPlayer.createDetailedError. -/
def createDetailedError (st : Orch) (message : String) (src : String) : DetailedError :=
  let errType := detectErrorType message
  { errType := errType
    message := message
    src := src
    retryCount := st.retryCount
    maxRetries := st.maxRetries
    suggestion := getErrorSuggestion errType }

/-- The tail of the catch block of loadWithRetry: the same-source retry
branch, entered directly when no fallback-source list applies, or by
fall-through (with the counter already bumped) when the fallback index
ran off the list. -/
def loadWithRetrySame (st : Orch) (src : String) : Orch :=
  if st.retryCount < st.maxRetries then
    let st := { st with
      retryCount := st.retryCount + 1
      retryPeak := max st.retryPeak (st.retryCount + 1) }
    let delay := min (1000 * 2 ^ (st.retryCount - 1)) 10000
    { st with taskQueue := st.taskQueue ++ [.callLoadWithRetry src delay] }
  else
    { st with emittedErrors := st.emittedErrors ++
        [createDetailedError st "视频加载失败：已达到最大重试次数" src] }

/-- The catch block of loadWithRetry: emit the detailed error, then
advance to the next fallback source when one is configured and attempts
remain, falling back to the same-source retry branch otherwise. -/
def loadWithRetryCatch (st : Orch) (message : String) (src : String) : Orch :=
  let st := { st with
    emittedErrors := st.emittedErrors ++ [createDetailedError st message src] }
  if !st.opts.fallbackSources.isEmpty ∧ st.retryCount < st.maxRetries then
    let st := { st with
      retryCount := st.retryCount + 1
      retryPeak := max st.retryPeak (st.retryCount + 1) }
    match st.opts.fallbackSources.get? (st.retryCount - 1) with
    | some fb =>
      let delay := min (1000 * 2 ^ (st.retryCount - 1)) 10000
      { st with taskQueue := st.taskQueue ++ [.callLoadSource fb delay] }
    | none => loadWithRetrySame st src
  else loadWithRetrySame st src

/-- VideoPlayer.loadWithRetry: engine.load, resetting the retry counter
and re-wiring the events on success; the catch path handles a missing
engine or a throwing load. -/
def loadWithRetry (env : OrchEnv) (st : Orch) (src : String) : Orch :=
  match st.engine with
  | none => loadWithRetryCatch st "播放器引擎未初始化" src
  | some _ =>
    if env.loadThrows src then
      loadWithRetryCatch { st with loadAttempts := st.loadAttempts ++ [src] }
        (env.loadErrorMessage src) src
    else
      let st := { st with loadAttempts := st.loadAttempts ++ [src], retryCount := 0 }
      setupEngineEvents st

/-- The fallback scan of the auto-best-format branch of loadSource: the
first fallback source whose detected format the capability advisor
recommends; detection of a fallback locator can itself throw. -/
def pickRecommended (env : OrchEnv) : List String → Except Unit (Option (String × VideoFormat))
  | [] => .ok none
  | fb :: rest =>
    match detectVideoFormat fb with
    | .error e => .error e
    | .ok f =>
      if env.recommended.contains f then .ok (some (fb, f))
      else pickRecommended env rest

/-- VideoPlayer.loadSource: classify, optionally auto-select a
recommended fallback source, translate RTMP, create the engine when none
exists or recreate it when the re-detected format differs from
currentFormat (which the first line of loadSource just overwrote), then
hand over to loadWithRetry. none models an exception escaping loadSource
(a throwing classification or engine construction). -/
def loadSource (env : OrchEnv) (st : Orch) (src : String) : Option Orch :=
  match detectVideoFormat src with
  | .error _ => none
  | .ok fmt0 =>
    let st := { st with currentSrc := some src, currentFormat := some fmt0 }
    let step1 : Option (Orch × String) :=
      if st.opts.autoSelectBestFormat && !(env.recommended.contains fmt0)
          && !st.opts.fallbackSources.isEmpty then
        match pickRecommended env st.opts.fallbackSources with
        | .error _ => none
        | .ok (some (fb, f)) => some ({ st with currentFormat := some f }, fb)
        | .ok none => some (st, src)
      else some (st, src)
    match step1 with
    | none => none
    | some (st, actualSrc1) =>
      let next :=
        if st.currentFormat == some VideoFormat.rtmp then
          match convertRTMPToHTTPFLV actualSrc1 with
          | some h => ({ st with currentFormat := some VideoFormat.flv }, h)
          | none => (st, actualSrc1)
        else (st, actualSrc1)
      let st := next.1
      let actualSrc := next.2
      let cfg : FactoryConfig :=
        { autoDetectFormat := st.opts.autoDetectFormat
          fallbackToNative := st.opts.fallbackToNative }
      match st.engine with
      | none =>
        match factoryCreate env.factory actualSrc cfg with
        | .error _ => none
        | .ok ce =>
          let st := { st with
            engine := some { id := st.nextEngineId, kind := ce.kind, listeners := [] }
            nextEngineId := st.nextEngineId + 1 }
          some (loadWithRetry env st actualSrc)
      | some e =>
        match detectVideoFormat actualSrc with
        | .error _ => none
        | .ok newFormat =>
          if some newFormat != st.currentFormat then
            let st := { st with
              destroyedEngines := st.destroyedEngines ++ [e.id]
              engine := none }
            match factoryCreate env.factory actualSrc cfg with
            | .error _ => none
            | .ok ce =>
              let st := { st with
                engine := some { id := st.nextEngineId, kind := ce.kind, listeners := [] }
                nextEngineId := st.nextEngineId + 1
                currentFormat := some newFormat }
              some (loadWithRetry env st actualSrc)
          else some (loadWithRetry env st actualSrc)

/-- One scheduled timer task. -/
def runTask (env : OrchEnv) (st : Orch) : OrchTask → Option Orch
  | .callLoadSource src _ => loadSource env st src
  | .callLoadWithRetry src _ => some (loadWithRetry env st src)

/-- Run scheduled tasks in order until the queue empties (fuel-bounded;
each retry chain schedules at most one task at a time). -/
def drainTasks (env : OrchEnv) : Nat → Orch → Option Orch
  | 0, st => some st
  | fuel + 1, st =>
    match st.taskQueue with
    | [] => some st
    | task :: rest =>
      match runTask env { st with taskQueue := rest } task with
      | none => none
      | some st2 => drainTasks env fuel st2

/-- The persistence decision of VideoPlayer.savePlaybackPosition (run on
the 5-second interval and at destroy): nothing without a source; clear
the stored history when the watched fraction exceeds 0.9; otherwise
persist the position. -/
inductive SaveAction
  | noSrc
  | clearHistory
  | save (position duration : ℚ)
deriving DecidableEq, Repr

/-- VideoPlayer.savePlaybackPosition as a function of the current source,
position and duration. -/
def savePlaybackPosition (currentSrc : Option String) (position duration : ℚ) : SaveAction :=
  match currentSrc with
  | none => .noSrc
  | some _ =>
    if 0 < duration ∧ 9 / 10 < position / duration then .clearHistory
    else .save position duration

/-! ### Concrete fixtures used by the scenario theorems -/

/-- A benign environment: engine loads succeed, specialized constructors
succeed, nothing persisted. -/
def envOk : OrchEnv :=
  { loadThrows := fun _ => false
    loadErrorMessage := fun _ => ""
    factory := {}
    recommended := []
    storedPosition := fun _ => none }

/-- The player after loading an HLS locator into a fresh instance. -/
def c1afterHls : Orch :=
  (loadSource envOk (orchInit {}) "https://example.com/a.m3u8").getD (orchInit {})

/-- The same player after a subsequent loadSource of a progressive (mp4)
locator: a protocol change. -/
def c1afterMp4 : Option Orch := loadSource envOk c1afterHls "https://example.com/b.mp4"

/-- An environment in which every engine.load throws a network error. -/
def envAllLoadsFail : OrchEnv :=
  { loadThrows := fun _ => true
    loadErrorMessage := fun _ => "network error"
    factory := {}
    recommended := []
    storedPosition := fun _ => none }

/-- Options of the C5 scenario: two fallback sources, maxRetries 3. -/
def c5opts : OrchOptions :=
  { fallbackSources := ["https://example.com/f1.mp4", "https://example.com/f2.mp4"]
    maxRetries := 3 }

/-- The C5 scenario run: load source X with every load failing, then run
the scheduled retry timers to exhaustion. -/
def c5run : Option Orch :=
  (loadSource envAllLoadsFail (orchInit c5opts) "https://example.com/x.mp4").bind
    (drainTasks envAllLoadsFail 10)

/-- The player after loading a progressive locator, for the raw-event
coalescing scenario. -/
def c8base : Orch :=
  (loadSource envOk (orchInit {}) "https://example.com/v.mp4").getD (orchInit {})

/-- The C8 scenario: two raw timeupdate events 100ms apart (both inside
one 250ms window), then timer quiescence. -/
def c8run : Orch :=
  flushShapedTimers
    (raiseEngineEvent envOk (raiseEngineEvent envOk c8base .timeupdate 1000) .timeupdate 1100)

/-- A player with playback history enabled and a progressive source
loaded. -/
def c10base : Orch :=
  (loadSource envOk (orchInit { enablePlaybackHistory := true })
    "https://example.com/a.mp4").getD (orchInit {})

/-- The environment whose position store answers p for every locator. -/
def c10env (p : ℚ) : OrchEnv := { envOk with storedPosition := fun _ => some p }

/-- The metadata-ready event arriving at instant 2000 with a stored
position of p for the current locator. -/
def c10raise (p : ℚ) : Orch := raiseEngineEvent (c10env p) c10base .loadedmetadata 2000

/-- An FLV engine with a source loaded and two reconnect attempts used. -/
def c6flvState : FlvState :=
  { flvNew 5 with reconnectCount := 2, currentSrc := some "http://a/live.flv" }

/-- An FLV environment in which flv.js player construction throws. -/
def c6flvEnv : FlvEnv := { createPlayerThrows := true }

/-- An idle FLV engine with a current source and the given reconnect
cap, as the C7 scenario starts. -/
def flvStart (cap : Nat) (src : String) : FlvState :=
  { flvNew cap with currentSrc := some src }

deriving instance DecidableEq for Except

/-! ### Theorems -/

/-- A locator that parses is not the empty string. -/
theorem parseURL_ne_empty {src : String} {u : URLModel} (h : parseURL src = some u) :
    (src == "") = false := by
  cases hb : src == ""
  · rfl
  · exfalso
    have hs : src = "" := by
      simpa using hb
    rw [hs] at h
    have hnone : parseURL "" = none := rfl
    rw [hnone] at h
    exact Option.noConfusion h

/-- C1: the spec claims a loadSource whose locator classifies to a new
protocol destroys the previous backend and detaches its handlers before
a new backend is attached. The code compares the re-detected format
against the currentFormat field it has itself just overwritten with that
very format, so the destroy-and-recreate branch never runs: after an HLS
load followed by a progressive (mp4) load, the orchestrator still holds
the original HLS backend instance (id 0), nothing was destroyed, and
currentFormat reports mp4 while the backend is the HLS one. -/
theorem C1_loadSource_never_destroys_backend :
    c1afterHls.engine.map (fun e => (e.id, e.kind)) = some (0, EngineKind.hls) ∧
    c1afterMp4.map (fun s => s.engine.map (fun e => (e.id, e.kind)))
      = some (some (0, EngineKind.hls)) ∧
    c1afterMp4.map (fun s => s.destroyedEngines) = some [] ∧
    c1afterMp4.map (fun s => s.currentFormat) = some (some VideoFormat.mp4) := by
  decide

/-- C2: the spec claims classify is total and never throws, with
substring fallback for unparsable locators. The substring fallback does
exist on the main path (second conjunct), but the HTTP-FLV pre-check
calls new URL outside any try block, so a locator containing /flv and a
live/stream hint that does not parse as a URL makes detectVideoFormat
throw (first conjunct). -/
theorem C2_classifier_not_total :
    detectVideoFormat "some/flv/live.mp4" = .error () ∧
    detectVideoFormat "://notaurl.m3u8" = .ok .hls := by
  decide

/-- C3 counterexample: the locator rtmp://example.com/video.m3u8 has
path extension m3u8, for which the fixed table says HLS, yet classify
returns RTMP — the scheme heuristic takes precedence, contradicting
"regardless of the locator's scheme". -/
theorem C3_scheme_beats_extension_table :
    (parseURL "rtmp://example.com/video.m3u8").map (fun u => pathExtension u.pathname)
      = some "m3u8" ∧
    specExtTag "m3u8" false = some VideoFormat.hls ∧
    detectVideoFormat "rtmp://example.com/video.m3u8" = .ok .rtmp ∧
    VideoFormat.rtmp ≠ VideoFormat.hls := by
  decide

/-- C3 amended: for every locator whose path extension matches the fixed
table, classify returns the table tag (with the AV1 sub-classification
for mp4/m4v/webm) regardless of scheme casing and query string, PROVIDED
no earlier-precedence heuristic fires: the locator does not start with
rtmp:// or rtmps://, and the HTTP-FLV pre-check does not route it to FLV
(its outer or its inner condition fails). The extension is taken from
the lowercased pathname, so extension casing is irrelevant, and the
hypotheses place no constraint on the scheme or the query. -/
theorem C3_extension_table (src : String) (u : URLModel) (tag : VideoFormat)
    (h1 : strStartsWith src "rtmp://" = false)
    (h2 : strStartsWith src "rtmps://" = false)
    (h3 : flvPreHit src = false ∨ flvPreInner u = false)
    (h4 : parseURL src = some u)
    (h5 : specExtTag (pathExtension u.pathname) (av1Hint src u) = some tag) :
    detectVideoFormat src = .ok tag := by
  have hne := parseURL_ne_empty h4
  have hfrom : detectFromURL src u = tag := by
    simp only [detectFromURL]
    simp only [specExtTag] at h5
    split_ifs at h5 ⊢ <;> simp_all
  have hmain : mainDetect src = detectFromURL src u := by
    simp [mainDetect, h4]
  cases hf : flvPreHit src with
  | false => simp [detectVideoFormat, hne, h1, h2, hf, hmain, hfrom]
  | true =>
    rcases h3 with h3 | h3
    · rw [hf] at h3
      exact absurd h3 (by simp)
    · simp [detectVideoFormat, hne, h1, h2, hf, h4, h3, hmain, hfrom]

/-- C3 witness: an uppercase-scheme, uppercase-extension HLS locator
with a query string classifies to HLS through the extension table. -/
theorem C3_extension_table_witness :
    strStartsWith "HTTPS://cdn.example.com/Media/Movie.M3U8?x=1" "rtmp://" = false ∧
    flvPreHit "HTTPS://cdn.example.com/Media/Movie.M3U8?x=1" = false ∧
    parseURL "HTTPS://cdn.example.com/Media/Movie.M3U8?x=1"
      = some ⟨"HTTPS", true, "cdn.example.com", "/Media/Movie.M3U8", some "x=1", none⟩ ∧
    specExtTag (pathExtension "/Media/Movie.M3U8")
        (av1Hint "HTTPS://cdn.example.com/Media/Movie.M3U8?x=1"
          ⟨"HTTPS", true, "cdn.example.com", "/Media/Movie.M3U8", some "x=1", none⟩)
      = some VideoFormat.hls ∧
    detectVideoFormat "HTTPS://cdn.example.com/Media/Movie.M3U8?x=1" = .ok .hls :=
  ⟨by decide, by decide, by decide, by decide,
    C3_extension_table "HTTPS://cdn.example.com/Media/Movie.M3U8?x=1"
      ⟨"HTTPS", true, "cdn.example.com", "/Media/Movie.M3U8", some "x=1", none⟩
      VideoFormat.hls (by decide) (by decide) (Or.inl (by decide)) (by decide) (by decide)⟩

/-- C4: for a locator classified HLS, DASH or FLV whose specialized
engine constructor throws, create returns the native (progressive)
engine with a diagnostic and does not throw when fallbackToNative is on,
and propagates the very construction error unchanged when it is off. -/
theorem C4_factory_fallback (env : FactoryEnv) (src : String) (f : VideoFormat) (e : Nat)
    (hdet : detectVideoFormat src = .ok f)
    (hcase : (f = .hls ∧ env.hlsCtorFail = some e) ∨ (f = .dash ∧ env.dashCtorFail = some e) ∨
      (f = .flv ∧ env.flvCtorFail = some e)) :
    factoryCreate env src { fallbackToNative := true } = .ok ⟨.native, true⟩ ∧
    factoryCreate env src { fallbackToNative := false } = .error (.ctorError e) := by
  rcases hcase with ⟨hf, hc⟩ | ⟨hf, hc⟩ | ⟨hf, hc⟩ <;> subst hf <;>
    exact ⟨by simp [factoryCreate, hdet, hc], by simp [factoryCreate, hdet, hc]⟩

/-- C4 witness: the scenario of the spec — locator a.m3u8, HLS backend
construction forced to fail. -/
theorem C4_factory_fallback_witness :
    detectVideoFormat "https://example.com/a.m3u8" = .ok .hls ∧
    factoryCreate { hlsCtorFail := some 7 } "https://example.com/a.m3u8"
        { fallbackToNative := true } = .ok ⟨.native, true⟩ ∧
    factoryCreate { hlsCtorFail := some 7 } "https://example.com/a.m3u8"
        { fallbackToNative := false } = .error (.ctorError 7) :=
  ⟨by decide,
    (C4_factory_fallback { hlsCtorFail := some 7 } "https://example.com/a.m3u8"
      VideoFormat.hls 7 (by decide) (Or.inl ⟨rfl, rfl⟩)).1,
    (C4_factory_fallback { hlsCtorFail := some 7 } "https://example.com/a.m3u8"
      VideoFormat.hls 7 (by decide) (Or.inl ⟨rfl, rfl⟩)).2⟩

/-- C5: whole-source load failure for X with two fallback sources and
maxRetries 3: engine.load attempts occur in the order X, fallback1,
fallback2; afterwards the task queue is empty (no fourth attempt is
scheduled), the retry counter reached exactly 3 and never exceeded it
(its peak is 3), and exactly one terminal error — carrying the attempt
counts and a suggestion string — was emitted. -/
theorem C5_fallback_chain_scenario :
    c5run.map (fun s => s.loadAttempts)
      = some ["https://example.com/x.mp4", "https://example.com/f1.mp4",
              "https://example.com/f2.mp4"] ∧
    c5run.map (fun s => s.retryCount) = some 3 ∧
    c5run.map (fun s => s.retryPeak) = some 3 ∧
    c5run.map (fun s => s.taskQueue) = some [] ∧
    c5run.map
        (fun s => (s.emittedErrors.filter
          (fun er => er.message == "视频加载失败：已达到最大重试次数")).map
            (fun er => (er.retryCount, er.maxRetries, er.suggestion)))
      = some [(3, 3, "请尝试刷新页面或使用备用视频源")] := by
  decide

/-- C6 counterexample: the FLV reconnect counter is claimed to reset
only on a successful reconnect. But FLVPlayerEngine.load zeroes it at
call time: from a state with two attempts used, a load whose flv.js
player construction throws (no success of any kind) still leaves the
counter at zero. -/
theorem C6_load_resets_counter_without_success :
    c6flvState.reconnectCount = 2 ∧
    (flvLoad c6flvEnv c6flvState "http://b/live2.flv").2 = true ∧
    (flvLoad c6flvEnv c6flvState "http://b/live2.flv").1.reconnectCount = 0 := by
  decide

/-- C8: the spec claims K raw time-update events within one 250ms window
coalesce to exactly one consumer timeupdate. setupEngineEvents attaches
both an unthrottled forwarding handler (handleEngineEvent re-emits every
raw timeupdate) and the throttled handler, so two raw events at 1000 and
1100 — inside one 250ms window, as the first conjunct records — produce
four consumer emissions: two direct, one throttle leading edge, one
throttle trailing edge. -/
theorem C8_timeupdate_not_coalesced :
    1100 < 1000 + 250 ∧
    c8run.consumerEvents =
      [(1000, PlayerEvent.timeupdate), (1000, PlayerEvent.timeupdate),
       (1100, PlayerEvent.timeupdate), (1250, PlayerEvent.timeupdate)] := by
  decide

/-- C9 counterexample: at watched fraction exactly 0.9 (position 9 of
duration 10) the claim requires the history to be cleared, but
savePlaybackPosition persists the position — its comparison is strict. -/
theorem C9_boundary_fraction_saved :
    (9 : ℚ) / 10 ≥ 9 / 10 ∧
    savePlaybackPosition (some "https://example.com/v.mp4") 9 10 = .save 9 10 := by
  refine ⟨le_refl _, ?_⟩
  have hred : savePlaybackPosition (some "https://example.com/v.mp4") 9 10 =
      if (0 : ℚ) < 10 ∧ (9 : ℚ) / 10 < 9 / 10 then .clearHistory else .save 9 10 := rfl
  rw [hred, if_neg]
  norm_num

theorem attachHandler_retryCount (st : Orch) (ev : PlayerEvent) (h : Handler) :
    (attachHandler st ev h).retryCount = st.retryCount := by
  unfold attachHandler
  rcases st.engine with _ | e <;> rfl

theorem foldl_attach_retryCount (l : List PlayerEvent) (g : Nat) (st : Orch) :
    (l.foldl (fun acc ev => attachHandler acc ev (.direct ev g)) st).retryCount
      = st.retryCount := by
  induction l generalizing st with
  | nil => rfl
  | cons ev rest ih =>
    rw [List.foldl_cons, ih, attachHandler_retryCount]

theorem cleanupEngineEvents_retryCount (st : Orch) :
    (cleanupEngineEvents st).retryCount = st.retryCount := by
  unfold cleanupEngineEvents
  rcases st.engine with _ | e <;> rfl

/-- setupEngineEvents only rewires listeners; it never touches the retry
counter. -/
theorem setupEngineEvents_retryCount (st : Orch) :
    (setupEngineEvents st).retryCount = st.retryCount := by
  unfold setupEngineEvents
  rcases hE : st.engine with _ | e
  · rfl
  · simp only [attachHandler_retryCount, foldl_attach_retryCount]
    split_ifs with hsetup <;>
      simp [attachHandler_retryCount, foldl_attach_retryCount, cleanupEngineEvents_retryCount]

/-- The same-source retry branch never zeroes a nonzero retry counter. -/
theorem loadWithRetrySame_zero (st : Orch) (src : String)
    (h0 : (loadWithRetrySame st src).retryCount = 0) : st.retryCount = 0 := by
  unfold loadWithRetrySame at h0
  split_ifs at h0
  · simp at h0
  · exact h0

/-- The whole catch block of loadWithRetry never zeroes a nonzero retry
counter: every path keeps or increments it. -/
theorem loadWithRetryCatch_zero (st : Orch) (msg src : String)
    (h0 : (loadWithRetryCatch st msg src).retryCount = 0) : st.retryCount = 0 := by
  simp only [loadWithRetryCatch] at h0
  split_ifs at h0
  · split at h0
    · simp at h0
    · have h1 := loadWithRetrySame_zero _ _ h0
      simp at h1
  · have h1 := loadWithRetrySame_zero _ _ h0
    exact h1

/-- C6 amended: the two counters are separate state with a reset
discipline that is only partly the one the spec claims. Conjuncts: a
successful engine.load zeroes the orchestrator retry counter; a call
that does not succeed can only keep or increase it (it is zero
afterwards only if it was zero before or the load succeeded); the FLV
counter is zeroed by its success signal (LOADING_COMPLETE); the
network-status and error signal handlers never zero it; but — beyond
the claim — every FLVPlayerEngine.load call also zeroes it at call
time, success or not (see the counterexample), and the manual
reconnect() call zeroes it as well. -/
theorem C6_reset_discipline :
    (∀ (env : OrchEnv) (st : Orch) (src : String),
      st.engine.isSome = true → env.loadThrows src = false →
        (loadWithRetry env st src).retryCount = 0) ∧
    (∀ (env : OrchEnv) (st : Orch) (src : String),
      (loadWithRetry env st src).retryCount = 0 →
        st.retryCount = 0 ∨ (st.engine.isSome = true ∧ env.loadThrows src = false)) ∧
    (∀ fst : FlvState, (handleLoadingComplete fst).reconnectCount = 0) ∧
    (∀ (fst : FlvState) (n : Nat),
      (handleNetworkStatus fst n).reconnectCount = 0 → fst.reconnectCount = 0) ∧
    (∀ (fst : FlvState) (ty : String),
      (handleFlvError fst ty).reconnectCount = 0 → fst.reconnectCount = 0) ∧
    (∀ (fenv : FlvEnv) (fst : FlvState) (fsrc : String),
      fenv.supported = true → strStartsWith fsrc "rtmp://" = false →
      strStartsWith fsrc "rtmps://" = false →
        (flvLoad fenv fst fsrc).1.reconnectCount = 0) := by
  have hatt : ∀ s : FlvState, (attemptReconnect s).reconnectCount = s.reconnectCount ∨
      (attemptReconnect s).reconnectCount = s.reconnectCount + 1 := by
    intro s
    unfold attemptReconnect
    split_ifs <;> simp
  refine ⟨?_, ?_, ?_, ?_, ?_, ?_⟩
  · intro env st src hE hl
    unfold loadWithRetry
    split
    · next hEng => rw [hEng] at hE; simp at hE
    · next e hEng =>
      rw [if_neg (by rw [hl]; simp)]
      simp [setupEngineEvents_retryCount]
  · intro env st src h0
    unfold loadWithRetry at h0
    split at h0
    · have h1 := loadWithRetryCatch_zero _ _ _ h0
      exact Or.inl h1
    · next e hEng =>
      by_cases hl : env.loadThrows src = true
      · rw [if_pos hl] at h0
        have h1 := loadWithRetryCatch_zero _ _ _ h0
        exact Or.inl h1
      · refine Or.inr ⟨?_, ?_⟩
        · rw [hEng]; rfl
        · simpa using hl
  · intro fst; rfl
  · intro fst n h0
    unfold handleNetworkStatus at h0
    split_ifs at h0
    · have hc := hatt
        { fst with
          connectionStatus := .disconnected
          emitted := fst.emitted ++ [.statusChange .disconnected] }
      rcases hc with hc | hc
      · rw [hc] at h0; exact h0
      · rw [hc] at h0; omega
    · exact h0
    · exact h0
    · exact h0
  · intro fst ty h0
    unfold handleFlvError at h0
    simp only [] at h0
    split_ifs at h0
    · have hc := hatt
        { fst with
          connectionStatus := .error
          emitted := fst.emitted ++ [.statusChange .error] }
      rcases hc with hc | hc
      · rw [hc] at h0; exact h0
      · rw [hc] at h0; omega
    · exact h0
  · intro fenv fst fsrc hs h1 h2
    unfold flvLoad
    rw [hs, h1, h2]
    simp only [Bool.not_true, Bool.or_self]
    rw [if_neg (by simp), if_neg (by simp)]
    unfold flvLoadRest
    split_ifs <;> rfl

/-- C6 witness: the reset discipline instantiated — a successful load of
the already-loaded HLS source leaves the retry counter at zero, the FLV
success signal zeroes the reconnect counter, an idle network signal
never zeroes it from a nonzero value, and a non-RTMP load call zeroes
it. -/
theorem C6_reset_discipline_witness :
    c1afterHls.engine.isSome = true ∧
    envOk.loadThrows "https://example.com/a.m3u8" = false ∧
    (loadWithRetry envOk c1afterHls "https://example.com/a.m3u8").retryCount = 0 ∧
    (handleLoadingComplete (flvNew 2)).reconnectCount = 0 ∧
    ((handleNetworkStatus (flvNew 2) 1).reconnectCount = 0 → (flvNew 2).reconnectCount = 0) ∧
    c6flvEnv.supported = true ∧
    (flvLoad c6flvEnv (flvNew 2) "http://b/live.flv").1.reconnectCount = 0 :=
  ⟨by decide, rfl,
    C6_reset_discipline.1 envOk c1afterHls "https://example.com/a.m3u8" (by decide) rfl,
    C6_reset_discipline.2.2.1 (flvNew 2),
    C6_reset_discipline.2.2.2.1 (flvNew 2) 1,
    rfl,
    C6_reset_discipline.2.2.2.2.2 c6flvEnv (flvNew 2) "http://b/live.flv" rfl (by decide)
      (by decide)⟩

/-- attemptReconnect below the cap: bump the counter, set connecting,
schedule the timer. -/
theorem attemptReconnect_lt (s : FlvState) (hs : s.autoReconnect = true)
    (hsome : s.currentSrc.isSome = true)
    (hlt : s.reconnectCount < s.maxReconnectAttempts) :
    attemptReconnect s
      = { s with
          reconnectCount := s.reconnectCount + 1
          connectionStatus := .connecting
          emitted := s.emitted ++ [.statusChangeReconnect (s.reconnectCount + 1)]
          reconnectTimerSet := true
          scheduledAttempts := s.scheduledAttempts + 1 } := by
  obtain ⟨sn, hcs⟩ := Option.isSome_iff_exists.mp hsome
  unfold attemptReconnect
  rw [if_neg (by simp [hs, hcs]), if_neg (by omega)]

/-- The field effects of one connection-loss signal (networkState 3):
below the cap it bumps the counter, schedules an attempt and sets
connecting; at the cap it changes neither counter nor schedule and sets
the error status. -/
theorem handleNetworkStatus3_fields (s : FlvState) (hs : s.autoReconnect = true)
    (hsome : s.currentSrc.isSome = true) :
    (handleNetworkStatus s 3).autoReconnect = s.autoReconnect ∧
    (handleNetworkStatus s 3).currentSrc = s.currentSrc ∧
    (handleNetworkStatus s 3).maxReconnectAttempts = s.maxReconnectAttempts ∧
    (s.reconnectCount < s.maxReconnectAttempts →
      (handleNetworkStatus s 3).reconnectCount = s.reconnectCount + 1 ∧
      (handleNetworkStatus s 3).scheduledAttempts = s.scheduledAttempts + 1 ∧
      (handleNetworkStatus s 3).connectionStatus = .connecting) ∧
    (s.maxReconnectAttempts ≤ s.reconnectCount →
      (handleNetworkStatus s 3).reconnectCount = s.reconnectCount ∧
      (handleNetworkStatus s 3).scheduledAttempts = s.scheduledAttempts ∧
      (handleNetworkStatus s 3).connectionStatus = .error) := by
  obtain ⟨sn, hcs⟩ := Option.isSome_iff_exists.mp hsome
  have hr : handleNetworkStatus s 3 = attemptReconnect
      { s with
        connectionStatus := .disconnected
        emitted := s.emitted ++ [.statusChange .disconnected] } := rfl
  rw [hr]
  unfold attemptReconnect
  split_ifs with hA hB
  · exfalso
    simp [hs, hcs] at hA
  · have hB' : s.maxReconnectAttempts ≤ s.reconnectCount := hB
    refine ⟨rfl, rfl, rfl, ?_, ?_⟩
    · intro hlt; omega
    · intro _; exact ⟨rfl, rfl, rfl⟩
  · have hB' : ¬(s.maxReconnectAttempts ≤ s.reconnectCount) := hB
    refine ⟨rfl, rfl, rfl, ?_, ?_⟩
    · intro _; exact ⟨rfl, rfl, rfl⟩
    · intro hge; omega

/-- A run of k consecutive connection-loss signals: the counter and the
number of scheduled attempts climb to the cap and stay there, and once
the signals outnumber the cap the status is the error status. -/
theorem lossSignals_run (k : Nat) (st : FlvState)
    (h1 : st.autoReconnect = true) (h2 : st.currentSrc.isSome = true)
    (h3 : st.reconnectCount ≤ st.maxReconnectAttempts) :
    (lossSignals k st).autoReconnect = true ∧
    (lossSignals k st).currentSrc = st.currentSrc ∧
    (lossSignals k st).maxReconnectAttempts = st.maxReconnectAttempts ∧
    (lossSignals k st).reconnectCount
      = min (st.reconnectCount + k) st.maxReconnectAttempts ∧
    (lossSignals k st).scheduledAttempts
      = st.scheduledAttempts
        + (min (st.reconnectCount + k) st.maxReconnectAttempts - st.reconnectCount) ∧
    (1 ≤ k → (lossSignals k st).connectionStatus
      = (if st.maxReconnectAttempts < st.reconnectCount + k then ConnStatus.error
         else ConnStatus.connecting)) := by
  induction k generalizing st with
  | zero =>
    simp only [lossSignals]
    refine ⟨h1, trivial, trivial, by omega, by omega, ?_⟩
    intro h
    omega
  | succ k ih =>
    have hstep : lossSignals (k + 1) st = lossSignals k (handleNetworkStatus st 3) := rfl
    obtain ⟨p1, p2, p3, p4, p5⟩ := handleNetworkStatus3_fields st h1 h2
    rw [hstep]
    by_cases hc : st.reconnectCount < st.maxReconnectAttempts
    · obtain ⟨q1, q2, q3⟩ := p4 hc
      obtain ⟨r1, r2, r3, r4, r5, r6⟩ := ih (handleNetworkStatus st 3)
        (p1.trans h1) (by rw [p2]; exact h2) (by rw [q1, p3]; omega)
      refine ⟨r1, r2.trans p2, r3.trans p3, ?_, ?_, ?_⟩
      · rw [r4, q1, p3]
        omega
      · rw [r5, q2, q1, p3]
        omega
      · intro _
        rcases Nat.eq_zero_or_pos k with hk0 | hkpos
        · subst hk0
          simp only [lossSignals]
          rw [q3, if_neg (by omega)]
        · have r6h := r6 hkpos
          rw [q1, p3] at r6h
          rw [r6h]
          by_cases hcond : st.maxReconnectAttempts < st.reconnectCount + (k + 1)
          · rw [if_pos (by omega), if_pos hcond]
          · rw [if_neg (by omega), if_neg hcond]
    · obtain ⟨q1, q2, q3⟩ := p5 (by omega)
      obtain ⟨r1, r2, r3, r4, r5, r6⟩ := ih (handleNetworkStatus st 3)
        (p1.trans h1) (by rw [p2]; exact h2) (by rw [q1, p3]; omega)
      refine ⟨r1, r2.trans p2, r3.trans p3, ?_, ?_, ?_⟩
      · rw [r4, q1, p3]
        omega
      · rw [r5, q2, q1, p3]
        omega
      · intro _
        rcases Nat.eq_zero_or_pos k with hk0 | hkpos
        · subst hk0
          simp only [lossSignals]
          rw [q3, if_pos (by omega)]
        · have r6h := r6 hkpos
          rw [q1, p3] at r6h
          rw [r6h, if_pos (by omega), if_pos (by omega)]

/-- C7: from an idle FLV engine with maxReconnectAttempts N (N at least
1) hit by k consecutive connection-loss signals with k exceeding N:
exactly N reconnect attempts were scheduled and the counter stopped at
N, ConnectionStatus is Error and the excess signals scheduled nothing;
a subsequent manual reconnect() zeroes the counter before re-scheduling,
so it ends at 1 with one more scheduled attempt and status connecting. -/
theorem C7_reconnect_cap (N k : Nat) (src : String) (hN : 1 ≤ N) (hk : N < k) :
    (lossSignals k (flvStart N src)).scheduledAttempts = N ∧
    (lossSignals k (flvStart N src)).reconnectCount = N ∧
    (lossSignals k (flvStart N src)).connectionStatus = ConnStatus.error ∧
    (flvReconnect (lossSignals k (flvStart N src))).reconnectCount = 1 ∧
    (flvReconnect (lossSignals k (flvStart N src))).scheduledAttempts = N + 1 ∧
    (flvReconnect (lossSignals k (flvStart N src))).connectionStatus
      = ConnStatus.connecting := by
  obtain ⟨r1, r2, r3, r4, r5, r6⟩ := lossSignals_run k (flvStart N src) rfl rfl
    (by show (0 : Nat) ≤ N; omega)
  have hsrc : (lossSignals k (flvStart N src)).currentSrc = some src := r2
  have hmax : (lossSignals k (flvStart N src)).maxReconnectAttempts = N := r3
  have hcount : (lossSignals k (flvStart N src)).reconnectCount = min (0 + k) N := r4
  have hsch : (lossSignals k (flvStart N src)).scheduledAttempts = 0 + (min (0 + k) N - 0) := r5
  have hstat := r6 (by omega)
  have hstat2 : (lossSignals k (flvStart N src)).connectionStatus
      = (if N < 0 + k then ConnStatus.error else ConnStatus.connecting) := hstat
  rw [if_pos (by omega)] at hstat2
  have hcond : ({ lossSignals k (flvStart N src) with
      reconnectCount := 0 } : FlvState).currentSrc.isSome = true := by
    show (lossSignals k (flvStart N src)).currentSrc.isSome = true
    rw [hsrc]
    rfl
  have hfr : flvReconnect (lossSignals k (flvStart N src)) = attemptReconnect
      { lossSignals k (flvStart N src) with reconnectCount := 0 } := by
    simp only [flvReconnect]
    rw [if_pos hcond]
  have hal : attemptReconnect
      ({ lossSignals k (flvStart N src) with reconnectCount := 0 } : FlvState)
      = { ({ lossSignals k (flvStart N src) with reconnectCount := 0 } : FlvState) with
          reconnectCount :=
            ({ lossSignals k (flvStart N src) with
              reconnectCount := 0 } : FlvState).reconnectCount + 1
          connectionStatus := .connecting
          emitted := ({ lossSignals k (flvStart N src) with
              reconnectCount := 0 } : FlvState).emitted
            ++ [.statusChangeReconnect (({ lossSignals k (flvStart N src) with
              reconnectCount := 0 } : FlvState).reconnectCount + 1)]
          reconnectTimerSet := true
          scheduledAttempts := ({ lossSignals k (flvStart N src) with
              reconnectCount := 0 } : FlvState).scheduledAttempts + 1 } :=
    attemptReconnect_lt _ r1 hcond (by show 0 < _; rw [hmax]; omega)
  refine ⟨by rw [hsch]; omega, by rw [hcount]; omega, hstat2, ?_, ?_, ?_⟩
  · rw [hfr, hal]
  · rw [hfr, hal]
    show (lossSignals k (flvStart N src)).scheduledAttempts + 1 = N + 1
    rw [hsch]
    omega
  · rw [hfr, hal]

/-- C7 witness: the scenario of the spec — three consecutive
connection-loss signals with maxReconnectAttempts 2 schedule exactly two
attempts and end in the Error status with no third attempt, and a manual
reconnect restarts counting from zero. -/
theorem C7_reconnect_cap_witness :
    1 ≤ 2 ∧ 2 < 3 ∧
    ((lossSignals 3 (flvStart 2 "http://a/live.flv")).scheduledAttempts = 2 ∧
     (lossSignals 3 (flvStart 2 "http://a/live.flv")).reconnectCount = 2 ∧
     (lossSignals 3 (flvStart 2 "http://a/live.flv")).connectionStatus = ConnStatus.error ∧
     (flvReconnect (lossSignals 3 (flvStart 2 "http://a/live.flv"))).reconnectCount = 1 ∧
     (flvReconnect (lossSignals 3 (flvStart 2 "http://a/live.flv"))).scheduledAttempts
       = 2 + 1 ∧
     (flvReconnect (lossSignals 3 (flvStart 2 "http://a/live.flv"))).connectionStatus
       = ConnStatus.connecting) :=
  ⟨by decide, by decide, C7_reconnect_cap 2 3 "http://a/live.flv" (by decide) (by decide)⟩

/-- C9 amended: with a positive known duration, the position is
persisted exactly when its fraction-of-duration is at most 0.9, and the
stored history for the locator is cleared exactly when the fraction is
strictly above 0.9 (the code compares with strict greater-than, so the
boundary fraction 0.9 itself is persisted, not cleared). -/
theorem C9_save_threshold (src : String) (position duration : ℚ) (hdur : 0 < duration) :
    (savePlaybackPosition (some src) position duration = .clearHistory ↔
      9 / 10 < position / duration) ∧
    (savePlaybackPosition (some src) position duration = .save position duration ↔
      position / duration ≤ 9 / 10) := by
  have hred : savePlaybackPosition (some src) position duration =
      if 0 < duration ∧ 9 / 10 < position / duration then .clearHistory
      else .save position duration := rfl
  rw [hred]
  by_cases h : 9 / 10 < position / duration
  · rw [if_pos ⟨hdur, h⟩]
    refine ⟨⟨fun _ => h, fun _ => rfl⟩, ?_, ?_⟩
    · intro hEq
      simp at hEq
    · intro hle
      exact absurd h (not_lt.mpr hle)
  · rw [if_neg (fun hc => h hc.2)]
    refine ⟨⟨?_, ?_⟩, fun _ => not_lt.mp h, fun _ => rfl⟩
    · intro hEq
      simp at hEq
    · intro hlt
      exact absurd hlt h

/-- C9 witness: duration 100 is positive, and a position at fraction
0.95 is cleared rather than persisted. -/
theorem C9_save_threshold_witness :
    (0 : ℚ) < 100 ∧
    (savePlaybackPosition (some "https://example.com/v.mp4") 95 100 = .clearHistory ↔
      (9 : ℚ) / 10 < 95 / 100) :=
  ⟨by norm_num, (C9_save_threshold "https://example.com/v.mp4" 95 100 (by norm_num)).1⟩

/-- C10: with playback history enabled and a source loaded, the
metadata-ready event restores a stored position — one seek call plus a
playbackrestored event 500ms later — exactly when the stored position is
strictly greater than 5 seconds; a stored position of at most 5 seconds
is silently ignored. -/
theorem restore_step_eq (env : OrchEnv) (st : Orch) (src : String) (t : Nat) (p : ℚ)
    (h : env.storedPosition src = some p) :
    restorePlaybackPositionStep env st src t =
      (if 5 < p then
        { st with
          seekCalls := st.seekCalls ++ [p]
          consumerEvents := st.consumerEvents ++ [(t + 500, .playbackrestored)] }
       else st) := by
  unfold restorePlaybackPositionStep
  rw [h]

theorem C10_restore_trigger_rule (p : ℚ) :
    (c10raise p).seekCalls = (if 5 < p then [p] else []) ∧
    (c10raise p).consumerEvents =
      (if 5 < p then
        [(2500, PlayerEvent.playbackrestored), (2000, PlayerEvent.loadedmetadata)]
       else [(2000, PlayerEvent.loadedmetadata)]) := by
  rcases hEng : c10base.engine with _ | e
  · exact absurd hEng (by decide)
  · have hfil0 : c10base.engine.map
        (fun en => en.listeners.filter (fun q => q.1 == PlayerEvent.loadedmetadata))
        = some [(PlayerEvent.loadedmetadata, Handler.direct PlayerEvent.loadedmetadata 0)] := by
      decide
    rw [hEng] at hfil0
    have hfil : e.listeners.filter (fun q => q.1 == PlayerEvent.loadedmetadata)
        = [(PlayerEvent.loadedmetadata, Handler.direct PlayerEvent.loadedmetadata 0)] :=
      Option.some.inj hfil0
    have hraise : c10raise p
        = handleEngineEvent (c10env p) c10base PlayerEvent.loadedmetadata 2000 := by
      unfold c10raise raiseEngineEvent
      rw [hEng]
      show List.foldl (fun acc q => runHandler (c10env p) acc q.2 2000) c10base
          (e.listeners.filter (fun q => q.1 == PlayerEvent.loadedmetadata))
        = handleEngineEvent (c10env p) c10base PlayerEvent.loadedmetadata 2000
      rw [hfil]
      rfl
    have hsrc : c10base.currentSrc = some "https://example.com/a.mp4" := by decide
    have hhist : c10base.opts.enablePlaybackHistory = true := by decide
    have hstep : handleEngineEvent (c10env p) c10base PlayerEvent.loadedmetadata 2000
        = emitC (restorePlaybackPositionStep (c10env p) c10base
            "https://example.com/a.mp4" 2000) 2000 PlayerEvent.loadedmetadata := by
      unfold handleEngineEvent
      rw [hsrc]
      simp only [hhist, if_true]
    have hstore : (c10env p).storedPosition "https://example.com/a.mp4" = some p := rfl
    have hseek0 : c10base.seekCalls = [] := by decide
    have hcons0 : c10base.consumerEvents = [] := by decide
    rw [hraise, hstep, restore_step_eq (c10env p) c10base "https://example.com/a.mp4" 2000 p
      hstore]
    by_cases h5 : 5 < p
    · simp only [if_pos h5]
      unfold emitC
      constructor
      · show c10base.seekCalls ++ [p] = [p]
        rw [hseek0]
        rfl
      · show (c10base.consumerEvents ++ [(2000 + 500, PlayerEvent.playbackrestored)])
            ++ [(2000, PlayerEvent.loadedmetadata)]
          = [(2500, PlayerEvent.playbackrestored), (2000, PlayerEvent.loadedmetadata)]
        rw [hcons0]
        rfl
    · simp only [if_neg h5]
      unfold emitC
      constructor
      · exact hseek0
      · show c10base.consumerEvents ++ [(2000, PlayerEvent.loadedmetadata)]
          = [(2000, PlayerEvent.loadedmetadata)]
        rw [hcons0]
        rfl

end VP
